import Mathlib

set_option maxRecDepth 100000

/-!
Verification development for a minimal KVM virtual machine monitor written
in Rust (three source files: kvm_bindings.rs, kvm.rs, main.rs).

The definitions below are a shallow embedding of the source:
  - the ioctl command-encoding helpers and constants of kvm_bindings.rs,
    with struct byte sizes computed from the declared field layouts under
    the C representation rules;
  - the exit-reason constants and the run/exit payload view that main.rs
    reads from the shared KvmRun page;
  - the run-loop dispatch of main.rs (the match on exit_reason, the
    exit_count guard, and the break/continue structure), and the
    straight-line setup phase of main with each fallible operation
    abstracted by its result supplied in an environment record;
  - the open/version-check logic of Kvm::new in kvm.rs.

Guest instruction execution is performed by the hardware/kernel, not by
code of this repository; where a property needs it, a small interpreter is
modelled from the instruction comments in main.rs and marked as such.
-/

/-! ## C layout computation for the repr(C) structs of kvm_bindings.rs -/

/-- Round an offset up to a multiple of an alignment (alignments here are
powers of two and never zero). -/
def alignUp (off a : Nat) : Nat := ((off + a - 1) / a) * a

/-- Alignment of a struct: the maximum field alignment (1 when empty). -/
def structAlign (fs : List (Nat × Nat)) : Nat := fs.foldl (fun m p => max m p.1) 1

/-- Offset just past the last field after laying fields out in order,
aligning each field to its own alignment. -/
def structEnd (fs : List (Nat × Nat)) : Nat := fs.foldl (fun off p => alignUp off p.1 + p.2) 0

/-- Total byte size of a repr(C) struct: the end offset rounded up to the
struct alignment. Each field is given as an (alignment, size) pair. -/
def structSize (fs : List (Nat × Nat)) : Nat := alignUp (structEnd fs) (structAlign fs)

/-- Primitive field types appearing in the binding structs. -/
inductive CPrim
| u8
| u16
| u32
| u64
| arrU16 (n : Nat)
| arrU64 (n : Nat)
deriving DecidableEq, Repr

/-- Alignment and size of a primitive field on x86_64. -/
def primLayout : CPrim → Nat × Nat
| CPrim.u8 => (1, 1)
| CPrim.u16 => (2, 2)
| CPrim.u32 => (4, 4)
| CPrim.u64 => (8, 8)
| CPrim.arrU16 n => (2, 2 * n)
| CPrim.arrU64 n => (8, 8 * n)

/-- Fields of KvmUserspaceMemoryRegion, in source order. -/
def kvmUserspaceMemoryRegion_fields : List (String × CPrim) :=
  [("slot", CPrim.u32), ("flags", CPrim.u32), ("guest_phys_addr", CPrim.u64),
   ("memory_size", CPrim.u64), ("userspace_addr", CPrim.u64)]

/-- Byte size of KvmUserspaceMemoryRegion. -/
def kvmUserspaceMemoryRegionSize : Nat :=
  structSize (kvmUserspaceMemoryRegion_fields.map (fun f => primLayout f.2))

/-- Fields of KvmRegs, in source order. -/
def kvmRegs_fields : List (String × CPrim) :=
  [("rax", CPrim.u64), ("rbx", CPrim.u64), ("rcx", CPrim.u64), ("rdx", CPrim.u64),
   ("rsi", CPrim.u64), ("rdi", CPrim.u64), ("rsp", CPrim.u64), ("rbp", CPrim.u64),
   ("r8", CPrim.u64), ("r9", CPrim.u64), ("r10", CPrim.u64), ("r11", CPrim.u64),
   ("r12", CPrim.u64), ("r13", CPrim.u64), ("r14", CPrim.u64), ("r15", CPrim.u64),
   ("rip", CPrim.u64), ("rflags", CPrim.u64)]

/-- Byte size of KvmRegs. -/
def kvmRegsSize : Nat := structSize (kvmRegs_fields.map (fun f => primLayout f.2))

/-- Fields of KvmSegment, in source order. -/
def kvmSegment_fields : List (String × CPrim) :=
  [("base", CPrim.u64), ("limit", CPrim.u32), ("selector", CPrim.u16),
   ("type_", CPrim.u8), ("present", CPrim.u8), ("dpl", CPrim.u8), ("db", CPrim.u8),
   ("s", CPrim.u8), ("l", CPrim.u8), ("g", CPrim.u8), ("avl", CPrim.u8),
   ("unusable", CPrim.u8), ("padding", CPrim.u8)]

/-- Fields of KvmDtable, in source order. -/
def kvmDtable_fields : List (String × CPrim) :=
  [("base", CPrim.u64), ("limit", CPrim.u16), ("padding", CPrim.arrU16 3)]

/-- Alignment and size of KvmSegment as a nested repr(C) struct. -/
def kvmSegmentLayout : Nat × Nat :=
  (structAlign (kvmSegment_fields.map (fun f => primLayout f.2)),
   structSize (kvmSegment_fields.map (fun f => primLayout f.2)))

/-- Alignment and size of KvmDtable as a nested repr(C) struct. -/
def kvmDtableLayout : Nat × Nat :=
  (structAlign (kvmDtable_fields.map (fun f => primLayout f.2)),
   structSize (kvmDtable_fields.map (fun f => primLayout f.2)))

/-- Field types usable inside KvmSregs: a primitive, a segment descriptor,
or a descriptor-table register. -/
inductive SField
| prim (p : CPrim)
| segment
| dtable
deriving DecidableEq, Repr

/-- Alignment and size of a KvmSregs field. -/
def sfieldLayout : SField → Nat × Nat
| SField.prim p => primLayout p
| SField.segment => kvmSegmentLayout
| SField.dtable => kvmDtableLayout

/-- Fields of KvmSregs, in source order: eight segment descriptors
(cs, ds, es, fs, gs, ss, tr, ldt), two descriptor tables (gdt, idt),
five control registers (cr0, cr2, cr3, cr4, cr8), efer, apic_base and the
interrupt bitmap. -/
def kvmSregs_fields : List (String × SField) :=
  [("cs", SField.segment), ("ds", SField.segment), ("es", SField.segment),
   ("fs", SField.segment), ("gs", SField.segment), ("ss", SField.segment),
   ("tr", SField.segment), ("ldt", SField.segment),
   ("gdt", SField.dtable), ("idt", SField.dtable),
   ("cr0", SField.prim CPrim.u64), ("cr2", SField.prim CPrim.u64),
   ("cr3", SField.prim CPrim.u64), ("cr4", SField.prim CPrim.u64),
   ("cr8", SField.prim CPrim.u64),
   ("efer", SField.prim CPrim.u64), ("apic_base", SField.prim CPrim.u64),
   ("interrupt_bitmap", SField.prim (CPrim.arrU64 4))]

/-- Byte size of KvmSregs. -/
def kvmSregsSize : Nat := structSize (kvmSregs_fields.map (fun f => sfieldLayout f.2))

/-! ## The ioctl command encoding of kvm_bindings.rs -/

/-- The facility type tag (source name: KVMIO). -/
def kvmIoTag : Nat := 0xAE

/-- Embeds the source helper for commands with no payload:
direction field 0, then type tag at bit 8, command number in the low byte. -/
def ioctlNone (ty nr : Nat) : Nat := (0 <<< 30) ||| (ty <<< 8) ||| nr

/-- Embeds the source helper for read-direction commands (direction 2),
with the payload size at bit 16. -/
def ioctlRead (sz ty nr : Nat) : Nat := (2 <<< 30) ||| (sz <<< 16) ||| (ty <<< 8) ||| nr

/-- Embeds the source helper for write-direction commands (direction 1),
with the payload size at bit 16. -/
def ioctlWrite (sz ty nr : Nat) : Nat := (1 <<< 30) ||| (sz <<< 16) ||| (ty <<< 8) ||| nr

def KVM_GET_API_VERSION : Nat := ioctlNone kvmIoTag 0x00

def KVM_CREATE_VM : Nat := ioctlNone kvmIoTag 0x01

def KVM_GET_VCPU_MMAP_SIZE : Nat := ioctlNone kvmIoTag 0x04

def KVM_CREATE_VCPU : Nat := ioctlNone kvmIoTag 0x41

def KVM_SET_USER_MEMORY_REGION : Nat := ioctlWrite kvmUserspaceMemoryRegionSize kvmIoTag 0x46

def KVM_RUN : Nat := ioctlNone kvmIoTag 0x80

def KVM_GET_REGS : Nat := ioctlRead kvmRegsSize kvmIoTag 0x81

def KVM_SET_REGS : Nat := ioctlWrite kvmRegsSize kvmIoTag 0x82

def KVM_GET_SREGS : Nat := ioctlRead kvmSregsSize kvmIoTag 0x83

def KVM_SET_SREGS : Nat := ioctlWrite kvmSregsSize kvmIoTag 0x84

/-! ## Exit reasons and the run/exit payload view read by main.rs -/

def KVM_EXIT_UNKNOWN : Nat := 0

def KVM_EXIT_IO : Nat := 2

def KVM_EXIT_HLT : Nat := 5

def KVM_EXIT_SHUTDOWN : Nat := 8

def KVM_EXIT_FAIL_ENTRY : Nat := 9

def KVM_EXIT_INTERNAL_ERROR : Nat := 17

def KVM_EXIT_IO_IN : Nat := 0

def KVM_EXIT_IO_OUT : Nat := 1

/-- The io member of the KvmRun exit union, in source field order. -/
structure IoExit where
  direction : Nat
  size : Nat
  port : Nat
  count : Nat
  data_offset : Nat
deriving DecidableEq, Repr

/-- The internal member of the KvmRun exit union, in source field order. -/
structure InternalExit where
  suberror : Nat
  ndata : Nat
  data : List Nat
deriving DecidableEq, Repr

/-- Snapshot of the fields of the shared KvmRun structure that main.rs
reads after a run call: the exit_reason discriminant and, as the union
members it may interpret, the io payload, the fail_entry payload
(hardware_entry_failure_reason), the internal payload and the hardware
exit reason. -/
structure KvmRunView where
  exit_reason : Nat
  ioExit : IoExit
  fail_entry : Nat
  internal : InternalExit
  hw : Nat
deriving DecidableEq, Repr

/-- An exit view whose reason is halt. -/
def mkHlt : KvmRunView := ⟨KVM_EXIT_HLT, ⟨0, 0, 0, 0, 0⟩, 0, ⟨0, 0, []⟩, 0⟩

/-- An exit view whose reason is shutdown. -/
def mkShutdown : KvmRunView := ⟨KVM_EXIT_SHUTDOWN, ⟨0, 0, 0, 0, 0⟩, 0, ⟨0, 0, []⟩, 0⟩

/-- An unrecognized exit: reason 0 (the unknown exit reason). -/
def mkUnknown : KvmRunView := ⟨KVM_EXIT_UNKNOWN, ⟨0, 0, 0, 0, 0⟩, 0, ⟨0, 0, []⟩, 0⟩

/-- An OUT-direction, size-1, count-1 port write exit to the given port. -/
def mkIoOut (port : Nat) : KvmRunView :=
  ⟨ KVM_EXIT_IO, ⟨KVM_EXIT_IO_OUT, 1, port, 1, 0⟩, 0, ⟨0, 0, []⟩, 0⟩

/-- A fail-entry exit carrying the given hardware_entry_failure_reason. -/
def mkFailEntry (reason : Nat) : KvmRunView :=
  ⟨KVM_EXIT_FAIL_ENTRY, ⟨0, 0, 0, 0, 0⟩, reason, ⟨0, 0, []⟩, 0⟩

/-- An internal-error exit carrying the given suberror and data words. -/
def mkInternalError (suberror ndata : Nat) (data : List Nat) : KvmRunView :=
  ⟨KVM_EXIT_INTERNAL_ERROR, ⟨0, 0, 0, 0, 0⟩, 0, ⟨suberror, ndata, data⟩, 0⟩

/-! ## The run-loop dispatch of main.rs -/

/-- Control state of the run loop after processing one exit: Continue is
the only non-terminal state; the others correspond to the five ways the
loop breaks in main.rs. -/
inductive ControlState
| Continue
| Halted
| ShutdownRequested
| FatalEntryFailure (reason : Nat)
| FatalInternalError (suberror : Nat)
| GuardTripped
deriving DecidableEq, Repr

/-- One step of the match on exit_reason in main.rs. The argument n is the
value of exit_count for this iteration (already incremented, as in the
source, before the match). Arm order follows the source: halt, io,
shutdown, internal error, fail entry, then the catch-all with the
exit_count guard. -/
def dispatchStep (n : Nat) (kr : KvmRunView) : ControlState :=
  if kr.exit_reason = KVM_EXIT_HLT then ControlState.Halted
  else if kr.exit_reason = KVM_EXIT_IO then ControlState.Continue
  else if kr.exit_reason = KVM_EXIT_SHUTDOWN then ControlState.ShutdownRequested
  else if kr.exit_reason = KVM_EXIT_INTERNAL_ERROR then
    ControlState.FatalInternalError kr.internal.suberror
  else if kr.exit_reason = KVM_EXIT_FAIL_ENTRY then
    ControlState.FatalEntryFailure kr.fail_entry
  else if 10 < n then ControlState.GuardTripped
  else ControlState.Continue

/-- The numeric payload values printed by the matched arm in main.rs
(the values passed to that arm's println): nothing for halt and shutdown,
port/direction/size/count for io, the suberror only for internal error,
the failure reason for fail entry, and the raw exit reason for the
catch-all. The direction is modelled by its numeric field value; the
source prints it as the string OUT or IN. -/
def armPrintedValues (kr : KvmRunView) : List Nat :=
  if kr.exit_reason = KVM_EXIT_HLT then []
  else if kr.exit_reason = KVM_EXIT_IO then
    [kr.ioExit.port, kr.ioExit.direction, kr.ioExit.size, kr.ioExit.count]
  else if kr.exit_reason = KVM_EXIT_SHUTDOWN then []
  else if kr.exit_reason = KVM_EXIT_INTERNAL_ERROR then [kr.internal.suberror]
  else if kr.exit_reason = KVM_EXIT_FAIL_ENTRY then [kr.fail_entry]
  else [kr.exit_reason]

/-- Whether an exit is of a recognized class, i.e. matched by one of the
five explicit arms in main.rs rather than the catch-all. -/
def isRecognized (kr : KvmRunView) : Bool :=
  kr.exit_reason == KVM_EXIT_HLT || kr.exit_reason == KVM_EXIT_IO ||
  kr.exit_reason == KVM_EXIT_SHUTDOWN || kr.exit_reason == KVM_EXIT_INTERNAL_ERROR ||
  kr.exit_reason == KVM_EXIT_FAIL_ENTRY

/-- Runs the loop of main.rs over a list of successive exit payloads
(what successive run calls would deposit in the shared page), threading
exit_count exactly as the source does. Returns the terminal state reached
(none when the supply of exits is exhausted while the loop would continue)
paired with the list of exits actually consumed. -/
def dispatchRun : List KvmRunView → Nat → Option ControlState × List KvmRunView
| [], _ => (none, [])
| kr :: ks, n =>
  match dispatchStep (n + 1) kr with
  | ControlState.Continue =>
    ((dispatchRun ks (n + 1)).1, kr :: (dispatchRun ks (n + 1)).2)
  | s => (some s, [kr])

/-- Length of the maximal all-unrecognized suffix of a list of exits. -/
def trailingUnrecognized (l : List KvmRunView) : Nat :=
  (l.reverse.takeWhile (fun kr => ! isRecognized kr)).length

/-! ## Kvm::new of kvm.rs -/

/-- The single supported protocol version (source: KVM_API_VERSION,
a c_int). -/
def KVM_API_VERSION : Int := 12

/-- Result of Kvm::new: either the facility handle or an error message. -/
inductive KvmNewResult
| ok (fd : Int)
| err (msg : String)
deriving DecidableEq, Repr

/-- Embeds Kvm::new of kvm.rs. The two inputs abstract the OS: the file
descriptor returned by the open call, and the protocol version reported by
the version-query command on it. Returns the result together with the list
of descriptors closed during the call (the drop handler of a returned Kvm
is not part of this call). The source first checks the open result, then
immediately queries the version and, on mismatch with the single supported
constant, closes the just-opened descriptor and fails. -/
def kvmNew (fd apiVersion : Int) : KvmNewResult × List Int :=
  if fd < 0 then (KvmNewResult.err "Could not open /dev/kvm", [])
  else if apiVersion ≠ KVM_API_VERSION then
    (KvmNewResult.err ("KVM API version mismatch: got " ++ toString apiVersion ++
      ", expected " ++ toString KVM_API_VERSION), [fd])
  else (KvmNewResult.ok fd, [])

/-! ## The setup phase and full run loop of main.rs -/

/-- What main returns: in the source, Result of unit and String. The ok
constructor is enriched with the terminal control state through which the
loop broke, so theorems can refer to how the run ended; the process exit
status depends only on the err/ok distinction. -/
inductive MainResult
| err (msg : String)
| ok (final : ControlState)
deriving DecidableEq, Repr

/-- Process exit status produced by a main result: Rust maps an Err return
of main to status 1 (printing the message) and Ok to status 0. -/
def statusOf : MainResult → Nat
| MainResult.err _ => 1
| MainResult.ok _ => 0

/-- Environment abstracting every OS interaction main.rs performs, in
program order: the open result and reported version (Kvm::new), the
VM-creation ioctl result, whether the guest-memory mmap succeeds, the
memory-region ioctl result, the vCPU-creation ioctl result, the mmap-size
ioctl result, whether the run-page mmap succeeds, the four register ioctl
results, and then per-iteration data for the loop: the result of each
KVM_RUN ioctl and the exit payload each successful run deposits. -/
structure Env where
  openFd : Int
  apiVersion : Int
  createVmFd : Int
  guestMemOk : Bool
  setRegionRet : Int
  createVcpuFd : Int
  mmapSizeRet : Int
  mapRunOk : Bool
  getSregsRet : Int
  setSregsRet : Int
  getRegsRet : Int
  setRegsRet : Int
  runRets : List Int
  exits : List KvmRunView
deriving Repr

/-- Whether some setup-phase operation of main.rs (open through the
initial register set) fails in the given environment. -/
def setupFails (e : Env) : Prop :=
  e.openFd < 0 ∨ e.apiVersion ≠ KVM_API_VERSION ∨ e.createVmFd < 0 ∨
  e.guestMemOk = false ∨ e.setRegionRet < 0 ∨ e.createVcpuFd < 0 ∨
  e.mmapSizeRet < 0 ∨ e.mapRunOk = false ∨ e.getSregsRet < 0 ∨
  e.setSregsRet < 0 ∨ e.getRegsRet < 0 ∨ e.setRegsRet < 0

instance (e : Env) : Decidable (setupFails e) := by
  unfold setupFails
  infer_instance

/-- The run loop of main.rs: each iteration first performs the run call
(propagating its failure as the Err return of main), then increments
exit_count and dispatches on the exit payload; Continue iterates, any
other state breaks the loop, after which main returns Ok. Returns none
when the per-iteration data is exhausted while the loop would continue. -/
def mainLoop : List Int → List KvmRunView → Nat → Option MainResult
| r :: rs, kr :: ks, n =>
  if r < 0 then some (MainResult.err "KVM_RUN failed")
  else
    match dispatchStep (n + 1) kr with
    | ControlState.Continue => mainLoop rs ks (n + 1)
    | s => some (MainResult.ok s)
| _, _, _ => none

/-- Embeds main of main.rs: the straight-line setup phase, where each
fallible step short-circuits with its error message exactly as the source
question-mark operator does (checks in source order: open, version,
VM creation, guest-memory allocation, memory-region registration, vCPU
creation, mmap-size query, run-page mapping, get/set of special registers,
get/set of general registers), followed by the run loop started with
exit_count zero. -/
def mainRun (e : Env) : Option MainResult :=
  if e.openFd < 0 then some (MainResult.err "Could not open /dev/kvm")
  else if e.apiVersion ≠ KVM_API_VERSION then
    some (MainResult.err ("KVM API version mismatch: got " ++ toString e.apiVersion ++
      ", expected " ++ toString KVM_API_VERSION))
  else if e.createVmFd < 0 then some (MainResult.err "Could not create VM")
  else if e.guestMemOk = false then some (MainResult.err "Could not allocate guest memory")
  else if e.setRegionRet < 0 then some (MainResult.err "Could not set memory region")
  else if e.createVcpuFd < 0 then some (MainResult.err "Could not create VCPU")
  else if e.mmapSizeRet < 0 then some (MainResult.err "Could not get VCPU mmap size")
  else if e.mapRunOk = false then some (MainResult.err "Could not mmap VCPU")
  else if e.getSregsRet < 0 then some (MainResult.err "Could not get special registers")
  else if e.setSregsRet < 0 then some (MainResult.err "Could not set special registers")
  else if e.getRegsRet < 0 then some (MainResult.err "Could not get registers")
  else if e.setRegsRet < 0 then some (MainResult.err "Could not set registers")
  else mainLoop e.runRets e.exits 0

/-! ## The end-to-end scenario guest -/

/-- The zero-initialized 4096-byte guest memory block main.rs allocates. -/
def guestMemoryInit : List Nat := List.replicate 0x1000 0

/-- The guest memory after the byte writes of main.rs step 4: the ten code
bytes at offsets 0 through 9. -/
def guestMemoryLoaded : List Nat :=
  ((((((((((guestMemoryInit.set 0 0xba).set 1 0x00).set 2 0x8a).set 3 0xb0).set
    4 0x48).set 5 0xee).set 6 0xb0).set 7 0x69).set 8 0xee).set 9 0xf4)

/-- Modelled from the spec: guest instruction execution is performed by the
hardware and kernel, not by code of this repository. The semantics of the
four instruction encodings appearing in the scenario are taken from the
assembly comments in main.rs step 4: byte 0xba moves the following 16-bit
immediate into dx, byte 0xb0 moves the following 8-bit immediate into al,
byte 0xee writes al to the port in dx and traps to the monitor with an
io exit of direction OUT, size 1 and count 1, and byte 0xf4 halts, trapping
with an hlt exit. Memory is the block mapped at guest-physical 0x1000; rip
starts there. The initial rsp 0x2000 and rflags 0x2 set by main.rs do not
affect these instructions and are not threaded. Returns the list of VM
exits the kernel would deposit across successive run calls. -/
def guestRun : Nat → Nat → Nat → Nat → List Nat → List KvmRunView
| 0, _, _, _, _ => []
| Nat.succ fuel, rip, dx, al, mem =>
  if mem.getD (rip - 0x1000) 0 = 0xba then
    guestRun fuel (rip + 3)
      (mem.getD (rip + 1 - 0x1000) 0 + 256 * mem.getD (rip + 2 - 0x1000) 0) al mem
  else if mem.getD (rip - 0x1000) 0 = 0xb0 then
    guestRun fuel (rip + 2) dx (mem.getD (rip + 1 - 0x1000) 0) mem
  else if mem.getD (rip - 0x1000) 0 = 0xee then
    mkIoOut dx :: guestRun fuel (rip + 1) dx al mem
  else if mem.getD (rip - 0x1000) 0 = 0xf4 then [mkHlt]
  else []

/-- The exit sequence of the end-to-end scenario: the loaded guest memory
executed from rip 0x1000 with dx and al zeroed, as main.rs step 9 zeroes
rdx and rax. -/
def scenarioExits : List KvmRunView := guestRun 16 0x1000 0 0 guestMemoryLoaded

/-! ## Spec-side layout definitions used to check claim C8 -/

/-- The field-type sequence of KvmSregs as declared in the source. -/
def kvmSregs_types : List SField := kvmSregs_fields.map (fun f => f.2)

/-- Stated from the claim wording for comparison: the special register
block as the claim describes it, in order: six segment descriptors, two
descriptor-table registers, four control registers as u64, EFER u64,
APIC base u64, and a four-element u64 interrupt bitmap. -/
def claimedSregs_types : List SField :=
  List.replicate 6 SField.segment ++ [SField.dtable, SField.dtable] ++
  List.replicate 4 (SField.prim CPrim.u64) ++
  [SField.prim CPrim.u64, SField.prim CPrim.u64, SField.prim (CPrim.arrU64 4)]

/-- Byte size the claimed layout would have. -/
def claimedSregsSize : Nat := structSize (claimedSregs_types.map sfieldLayout)

/-- The amended layout: as the claim, but with eight segment descriptors
(cs, ds, es, fs, gs, ss, tr, ldt) and five control registers
(cr0, cr2, cr3, cr4, cr8). -/
def amendedSregs_types : List SField :=
  List.replicate 8 SField.segment ++ [SField.dtable, SField.dtable] ++
  List.replicate 5 (SField.prim CPrim.u64) ++
  [SField.prim CPrim.u64, SField.prim CPrim.u64, SField.prim (CPrim.arrU64 4)]

/-- The per-segment field layout as the claim states it: base u64,
limit u32, selector u16, then type, present, dpl, db, s, l, g, avl,
unusable, padding as u8. -/
def claimedSegment_types : List CPrim :=
  [CPrim.u64, CPrim.u32, CPrim.u16, CPrim.u8, CPrim.u8, CPrim.u8, CPrim.u8,
   CPrim.u8, CPrim.u8, CPrim.u8, CPrim.u8, CPrim.u8, CPrim.u8]

/-- The descriptor-table field layout as the claim states it: base u64,
limit u16, then three u16 of padding. -/
def claimedDtable_types : List CPrim := [CPrim.u64, CPrim.u16, CPrim.arrU16 3]

/-! ## Concrete inputs used by counterexamples and witnesses -/

/-- Twelve exits: ten unknown, one recognized io exit, one more unknown.
On this sequence the source loop trips its guard at the twelfth exit even
though only one consecutive unrecognized exit precedes the trip. -/
def cexGuardEvents : List KvmRunView :=
  List.replicate 10 mkUnknown ++ [mkIoOut 3, mkUnknown]

/-- An environment whose open call fails; the rest would succeed. -/
def envSetupFail : Env := ⟨-1, 12, 4, true, 0, 5, 2048, true, 0, 0, 0, 0, [], []⟩

/-- An environment where setup succeeds and the first run call reports a
halt exit. -/
def envHalt : Env := ⟨3, 12, 4, true, 0, 5, 2048, true, 0, 0, 0, 0, [0], [mkHlt]⟩

/-- An environment where setup succeeds and eleven successful run calls
all report unknown exits, so the loop guard trips. -/
def envGuardTrip : Env :=
  ⟨3, 12, 4, true, 0, 5, 2048, true, 0, 0, 0, 0,
   List.replicate 11 0, List.replicate 11 mkUnknown⟩

/-! ## Helper lemmas about the dispatcher and the loop -/

/-- The dispatch step yields Halted exactly on the halt exit reason. -/
lemma dispatchStep_halted_iff (n : Nat) (kr : KvmRunView) :
    dispatchStep n kr = ControlState.Halted ↔ kr.exit_reason = KVM_EXIT_HLT := by
  unfold dispatchStep
  split_ifs with h1 h2 h3 h4 h5 h6 <;> simp_all

/-- Unfolding of the loop on a continuing head exit. -/
lemma dispatchRun_cons_continue {kr : KvmRunView} {ks : List KvmRunView} {n : Nat}
    (h : dispatchStep (n + 1) kr = ControlState.Continue) :
    dispatchRun (kr :: ks) n = ((dispatchRun ks (n + 1)).1, kr :: (dispatchRun ks (n + 1)).2) := by
  simp [dispatchRun, h]

/-- Unfolding of the loop on a terminating head exit. -/
lemma dispatchRun_cons_stop {kr : KvmRunView} {ks : List KvmRunView} {n : Nat}
    {s : ControlState} (h : dispatchStep (n + 1) kr = s) (hs : s ≠ ControlState.Continue) :
    dispatchRun (kr :: ks) n = (some s, [kr]) := by
  cases s <;> simp_all [dispatchRun]

/-- At any starting count, the loop ends Halted exactly when a halt exit is
among the exits it consumed. -/
lemma halted_iff_aux : ∀ (evts : List KvmRunView) (n : Nat),
    ((dispatchRun evts n).1 = some ControlState.Halted ↔
      ∃ kr ∈ (dispatchRun evts n).2, kr.exit_reason = KVM_EXIT_HLT) := by
  intro evts
  induction evts with
  | nil => intro n; simp [dispatchRun]
  | cons kr ks ih =>
    intro n
    by_cases hc : dispatchStep (n + 1) kr = ControlState.Continue
    · have h5 : kr.exit_reason ≠ KVM_EXIT_HLT := by
        intro h
        rw [(dispatchStep_halted_iff (n + 1) kr).mpr h] at hc
        exact absurd hc (by simp)
      rw [dispatchRun_cons_continue hc]
      simp only [List.mem_cons]
      constructor
      · intro h
        rcases (ih (n + 1)).1 h with ⟨x, hx, he⟩
        exact ⟨x, Or.inr hx, he⟩
      · rintro ⟨x, hx | hx, he⟩
        · exact absurd (hx ▸ he) h5
        · exact (ih (n + 1)).2 ⟨x, hx, he⟩
    · rw [dispatchRun_cons_stop rfl hc]
      simp only [Option.some_inj, List.mem_singleton]
      constructor
      · intro h
        exact ⟨kr, rfl, (dispatchStep_halted_iff (n + 1) kr).1 h⟩
      · rintro ⟨x, hx, he⟩
        subst hx
        exact (dispatchStep_halted_iff _ _).mpr he

/-- An exit is unrecognized exactly when its reason differs from all five
explicitly matched reasons. -/
lemma isRecognized_false_iff (kr : KvmRunView) :
    isRecognized kr = false ↔
      kr.exit_reason ≠ KVM_EXIT_HLT ∧ kr.exit_reason ≠ KVM_EXIT_IO ∧
      kr.exit_reason ≠ KVM_EXIT_SHUTDOWN ∧ kr.exit_reason ≠ KVM_EXIT_INTERNAL_ERROR ∧
      kr.exit_reason ≠ KVM_EXIT_FAIL_ENTRY := by
  simp [isRecognized]
  tauto

/-- On an unrecognized exit the dispatch step is the guard check. -/
lemma dispatchStep_unrec {kr : KvmRunView} (h : isRecognized kr = false) (n : Nat) :
    dispatchStep n kr = if 10 < n then ControlState.GuardTripped else ControlState.Continue := by
  obtain ⟨h1, h2, h3, h4, h5⟩ := (isRecognized_false_iff kr).1 h
  simp [dispatchStep, h1, h2, h3, h4, h5]

/-- On an io exit the dispatch step continues. -/
lemma dispatchStep_of_io {kr : KvmRunView} (h : kr.exit_reason = KVM_EXIT_IO) (n : Nat) :
    dispatchStep n kr = ControlState.Continue := by
  simp [dispatchStep, h, KVM_EXIT_IO, KVM_EXIT_HLT]

/-- An io exit is of a recognized class. -/
lemma isRecognized_of_io {kr : KvmRunView} (h : kr.exit_reason = KVM_EXIT_IO) :
    isRecognized kr = true := by
  simp [isRecognized, h]

/-- Over exits that are all io or unrecognized, the loop started at count n
trips the guard exactly when some exit at position i is unrecognized with
n + i + 1 exceeding ten: the count is a running total that no recognized
exit resets. -/
lemma guard_aux : ∀ (evts : List KvmRunView) (n : Nat),
    (∀ kr ∈ evts, kr.exit_reason = KVM_EXIT_IO ∨ isRecognized kr = false) →
    ((dispatchRun evts n).1 = some ControlState.GuardTripped ↔
      ∃ i, ∃ hi : i < evts.length, 10 < n + i + 1 ∧
        isRecognized (evts.get ⟨i, hi⟩) = false) := by
  intro evts
  induction evts with
  | nil =>
    intro n _
    simp [dispatchRun]
  | cons kr ks ih =>
    intro n hall
    have hlen : (kr :: ks).length = ks.length + 1 := rfl
    have htail : ∀ x ∈ ks, x.exit_reason = KVM_EXIT_IO ∨ isRecognized x = false :=
      fun x hx => hall x (List.mem_cons_of_mem kr hx)
    rcases hall kr (List.mem_cons_self kr ks) with hio | hunrec
    · rw [dispatchRun_cons_continue (dispatchStep_of_io hio (n + 1))]
      rw [ih (n + 1) htail]
      constructor
      · rintro ⟨iv, hi, h10, hu⟩
        exact ⟨iv + 1, by omega, by omega, hu⟩
      · rintro ⟨iv, hi, h10, hu⟩
        cases iv with
        | zero =>
          rw [show (kr :: ks).get ⟨0, hi⟩ = kr from rfl, isRecognized_of_io hio] at hu
          exact absurd hu (by simp)
        | succ j =>
          exact ⟨j, by omega, by omega, hu⟩
    · by_cases hg : 10 < n + 1
      · have hstep : dispatchStep (n + 1) kr = ControlState.GuardTripped := by
          rw [dispatchStep_unrec hunrec, if_pos hg]
        rw [dispatchRun_cons_stop hstep (by simp)]
        constructor
        · intro _
          exact ⟨0, by simp, by omega, hunrec⟩
        · intro _
          rfl
      · have hstep : dispatchStep (n + 1) kr = ControlState.Continue := by
          rw [dispatchStep_unrec hunrec, if_neg hg]
        rw [dispatchRun_cons_continue hstep]
        rw [ih (n + 1) htail]
        constructor
        · rintro ⟨iv, hi, h10, hu⟩
          exact ⟨iv + 1, by omega, by omega, hu⟩
        · rintro ⟨iv, hi, h10, hu⟩
          cases iv with
          | zero => exact absurd (by omega : 10 < n + 1) hg
          | succ j => exact ⟨j, by omega, by omega, hu⟩

/-- The only error the run loop itself can return is the run-call failure
message; every break of the loop returns ok. -/
lemma mainLoop_err_msg : ∀ (rs : List Int) (ks : List KvmRunView) (n : Nat) (m : String),
    mainLoop rs ks n = some (MainResult.err m) → m = "KVM_RUN failed" := by
  intro rs
  induction rs with
  | nil =>
    intro ks n m h
    simp [mainLoop] at h
  | cons r rs ih =>
    intro ks n m h
    cases ks with
    | nil => simp [mainLoop] at h
    | cons kr ks2 =>
      by_cases hr : r < 0
      · rw [mainLoop, if_pos hr] at h
        simp at h
        exact h.symm
      · rw [mainLoop, if_neg hr] at h
        cases hstep : dispatchStep (n + 1) kr
        all_goals rw [hstep] at h
        · exact ih ks2 (n + 1) m h
        all_goals simp at h

/-! ## Claim theorems -/

/-- C1 counterexample: on an internal-error exit carrying auxiliary data
words, the dispatcher does reach the fatal internal-error state, but the
matched arm of main.rs prints only the suberror: neither auxiliary data
word appears among the printed payload values, so the claim that the
suberror and its auxiliary data words are surfaced is false on the code. -/
theorem internalError_data_not_surfaced :
    dispatchStep 1 (mkInternalError 7 2 [51966, 57005]) =
      ControlState.FatalInternalError 7 ∧
    armPrintedValues (mkInternalError 7 2 [51966, 57005]) = [7] ∧
    51966 ∉ armPrintedValues (mkInternalError 7 2 [51966, 57005]) ∧
    57005 ∉ armPrintedValues (mkInternalError 7 2 [51966, 57005]) := by
  decide

/-- C1 (corrected): single-step dispatch of the run loop, for every exit
count and payload: a halt exit breaks terminally with Halted; a shutdown
exit breaks terminally with ShutdownRequested; a fail-entry exit breaks
terminally with the entry-failure state, surfacing
hardware_entry_failure_reason; an internal-error exit breaks terminally
with the internal-error state, surfacing the suberror only (not the
auxiliary data words); and an io exit continues the loop regardless of
direction, port, size or count, surfacing all four. -/
theorem dispatchStep_table (n : Nat) (kr : KvmRunView) (ks : List KvmRunView) :
    (kr.exit_reason = KVM_EXIT_HLT →
      dispatchRun (kr :: ks) n = (some ControlState.Halted, [kr])) ∧
    (kr.exit_reason = KVM_EXIT_SHUTDOWN →
      dispatchRun (kr :: ks) n = (some ControlState.ShutdownRequested, [kr])) ∧
    (kr.exit_reason = KVM_EXIT_FAIL_ENTRY →
      dispatchRun (kr :: ks) n = (some (ControlState.FatalEntryFailure kr.fail_entry), [kr]) ∧
      armPrintedValues kr = [kr.fail_entry]) ∧
    (kr.exit_reason = KVM_EXIT_INTERNAL_ERROR →
      dispatchRun (kr :: ks) n =
        (some (ControlState.FatalInternalError kr.internal.suberror), [kr]) ∧
      armPrintedValues kr = [kr.internal.suberror]) ∧
    (kr.exit_reason = KVM_EXIT_IO →
      dispatchStep (n + 1) kr = ControlState.Continue ∧
      dispatchRun (kr :: ks) n =
        ((dispatchRun ks (n + 1)).1, kr :: (dispatchRun ks (n + 1)).2) ∧
      armPrintedValues kr =
        [kr.ioExit.port, kr.ioExit.direction, kr.ioExit.size, kr.ioExit.count]) := by
  refine ⟨?_, ?_, ?_, ?_, ?_⟩
  · intro h
    refine dispatchRun_cons_stop ?_ (by simp)
    simp [dispatchStep, h, KVM_EXIT_HLT]
  · intro h
    refine dispatchRun_cons_stop ?_ (by simp)
    simp [dispatchStep, h, KVM_EXIT_HLT, KVM_EXIT_IO, KVM_EXIT_SHUTDOWN]
  · intro h
    constructor
    · refine dispatchRun_cons_stop ?_ (by simp)
      simp [dispatchStep, h, KVM_EXIT_HLT, KVM_EXIT_IO, KVM_EXIT_SHUTDOWN,
        KVM_EXIT_INTERNAL_ERROR, KVM_EXIT_FAIL_ENTRY]
    · simp [armPrintedValues, h, KVM_EXIT_HLT, KVM_EXIT_IO, KVM_EXIT_SHUTDOWN,
        KVM_EXIT_INTERNAL_ERROR, KVM_EXIT_FAIL_ENTRY]
  · intro h
    constructor
    · refine dispatchRun_cons_stop ?_ (by simp)
      simp [dispatchStep, h, KVM_EXIT_HLT, KVM_EXIT_IO, KVM_EXIT_SHUTDOWN,
        KVM_EXIT_INTERNAL_ERROR]
    · simp [armPrintedValues, h, KVM_EXIT_HLT, KVM_EXIT_IO, KVM_EXIT_SHUTDOWN,
        KVM_EXIT_INTERNAL_ERROR]
  · intro h
    refine ⟨dispatchStep_of_io h (n + 1),
      dispatchRun_cons_continue (dispatchStep_of_io h (n + 1)), ?_⟩
    simp [armPrintedValues, h, KVM_EXIT_HLT, KVM_EXIT_IO]

/-- C1 witness: the dispatch table applied at concrete exits of each of the
five recognized classes. -/
theorem dispatchStep_table_witness :
    dispatchRun [mkHlt] 0 = (some ControlState.Halted, [mkHlt]) ∧
    dispatchRun [mkShutdown] 0 = (some ControlState.ShutdownRequested, [mkShutdown]) ∧
    dispatchRun [mkFailEntry 9] 0 = (some (ControlState.FatalEntryFailure 9), [mkFailEntry 9]) ∧
    dispatchRun [mkInternalError 1 0 []] 0 =
      (some (ControlState.FatalInternalError 1), [mkInternalError 1 0 []]) ∧
    dispatchStep 1 (mkIoOut 0x8a00) = ControlState.Continue :=
  ⟨(dispatchStep_table 0 mkHlt []).1 rfl,
   (dispatchStep_table 0 mkShutdown []).2.1 rfl,
   ((dispatchStep_table 0 (mkFailEntry 9) []).2.2.1 rfl).1,
   ((dispatchStep_table 0 (mkInternalError 1 0 []) []).2.2.2.1 rfl).1,
   ((dispatchStep_table 0 (mkIoOut 0x8a00) []).2.2.2.2 rfl).1⟩

/-- C2 counterexample: on ten unknown exits, one recognized io exit and
one more unknown exit, the loop trips its guard, yet only one consecutive
unrecognized exit precedes the trip: the recognized io exit did not reset
the counter, refuting the claim that the guard trips only after more than
ten consecutive unrecognized exits. -/
theorem guard_counts_recognized_exits :
    (dispatchRun cexGuardEvents 0).1 = some ControlState.GuardTripped ∧
    isRecognized (cexGuardEvents.get ⟨10, by decide⟩) = true ∧
    trailingUnrecognized (dispatchRun cexGuardEvents 0).2 = 1 ∧
    ¬ (10 < trailingUnrecognized (dispatchRun cexGuardEvents 0).2) := by
  decide

/-- C2 (corrected): the loop counter counts every exit and is never reset
by recognized exits. Over any sequence of non-terminal exits (io or
unrecognized), the guard trips exactly when some exit at position i is of
the unrecognized class and the running total i + 1 exceeds ten — io exits
earlier in the loop advance the count toward the bound rather than
resetting it. -/
theorem guard_trip_characterization (evts : List KvmRunView)
    (h : ∀ kr ∈ evts, kr.exit_reason = KVM_EXIT_IO ∨ isRecognized kr = false) :
    ((dispatchRun evts 0).1 = some ControlState.GuardTripped ↔
      ∃ i, ∃ hi : i < evts.length, 10 < i + 1 ∧
        isRecognized (evts.get ⟨i, hi⟩) = false) := by
  simpa using guard_aux evts 0 h

/-- C2 witness: the characterization applied to twelve unknown exits. -/
theorem guard_trip_characterization_witness :
    (dispatchRun (List.replicate 12 mkUnknown) 0).1 = some ControlState.GuardTripped :=
  (guard_trip_characterization (List.replicate 12 mkUnknown) (by decide)).mpr
    ⟨10, by decide, by decide, by decide⟩

/-- C3 (confirmed): for every sequence of exit events driving the loop,
the dispatcher ends in Halted exactly when a halt exit is among the events
it observed (consumed); since the equivalence holds for all sequences, no
number of preceding io or unknown exits alters it. -/
theorem halted_iff_hlt_observed (evts : List KvmRunView) :
    ((dispatchRun evts 0).1 = some ControlState.Halted ↔
      ∃ kr ∈ (dispatchRun evts 0).2, kr.exit_reason = KVM_EXIT_HLT) :=
  halted_iff_aux evts 0

/-- C4 (confirmed): starting the dispatcher fresh, eleven consecutive
unknown exits reach GuardTripped exactly on the eleventh event (all eleven
are consumed and the loop stops there), while ten consecutive unknown
exits do not trip the guard. -/
theorem eleven_unknown_guard_trips :
    dispatchRun (List.replicate 11 mkUnknown) 0 =
      (some ControlState.GuardTripped, List.replicate 11 mkUnknown) ∧
    dispatchRun (List.replicate 10 mkUnknown) 0 = (none, List.replicate 10 mkUnknown) := by
  decide

/-- C5 (confirmed): when the facility device opens successfully but the
reported protocol version differs from the single supported constant 12,
Kvm::new fails with the version-mismatch error, closes exactly the
just-opened descriptor first, and returns no handle from which a VM could
be created. -/
theorem kvmNew_version_mismatch (fd v : Int) (hfd : ¬ fd < 0) (hv : v ≠ KVM_API_VERSION) :
    (∃ m, (kvmNew fd v).1 = KvmNewResult.err m) ∧
    (kvmNew fd v).2 = [fd] ∧
    (∀ g, (kvmNew fd v).1 ≠ KvmNewResult.ok g) ∧
    KVM_API_VERSION = 12 := by
  unfold kvmNew
  rw [if_neg hfd, if_pos hv]
  exact ⟨⟨_, rfl⟩, rfl, fun g h => KvmNewResult.noConfusion h, rfl⟩

/-- C5 witness: the version-mismatch theorem at descriptor 3 and reported
version 11. -/
theorem kvmNew_version_mismatch_witness :
    (∃ m, (kvmNew 3 11).1 = KvmNewResult.err m) ∧
    (kvmNew 3 11).2 = [3] ∧
    (∀ g, (kvmNew 3 11).1 ≠ KvmNewResult.ok g) ∧
    KVM_API_VERSION = 12 :=
  kvmNew_version_mismatch 3 11 (by decide) (by decide)

/-- C6 (confirmed): whenever any setup-phase operation fails, main returns
an error message and the process exits with the non-zero status 1; and
when main returns ok with the loop ended in Halted or ShutdownRequested,
the process exits with status 0. -/
theorem mainRun_exit_status (e : Env) :
    (setupFails e →
      ∃ m, mainRun e = some (MainResult.err m) ∧ statusOf (MainResult.err m) = 1) ∧
    (∀ st, mainRun e = some (MainResult.ok st) →
      (st = ControlState.Halted ∨ st = ControlState.ShutdownRequested) →
      statusOf (MainResult.ok st) = 0) := by
  constructor
  · intro hsf
    simp only [mainRun]
    by_cases h1 : e.openFd < 0
    · rw [if_pos h1]; exact ⟨_, rfl, rfl⟩
    rw [if_neg h1]
    by_cases h2 : e.apiVersion ≠ KVM_API_VERSION
    · rw [if_pos h2]; exact ⟨_, rfl, rfl⟩
    rw [if_neg h2]
    by_cases h3 : e.createVmFd < 0
    · rw [if_pos h3]; exact ⟨_, rfl, rfl⟩
    rw [if_neg h3]
    by_cases h4 : e.guestMemOk = false
    · rw [if_pos h4]; exact ⟨_, rfl, rfl⟩
    rw [if_neg h4]
    by_cases h5 : e.setRegionRet < 0
    · rw [if_pos h5]; exact ⟨_, rfl, rfl⟩
    rw [if_neg h5]
    by_cases h6 : e.createVcpuFd < 0
    · rw [if_pos h6]; exact ⟨_, rfl, rfl⟩
    rw [if_neg h6]
    by_cases h7 : e.mmapSizeRet < 0
    · rw [if_pos h7]; exact ⟨_, rfl, rfl⟩
    rw [if_neg h7]
    by_cases h8 : e.mapRunOk = false
    · rw [if_pos h8]; exact ⟨_, rfl, rfl⟩
    rw [if_neg h8]
    by_cases h9 : e.getSregsRet < 0
    · rw [if_pos h9]; exact ⟨_, rfl, rfl⟩
    rw [if_neg h9]
    by_cases h10 : e.setSregsRet < 0
    · rw [if_pos h10]; exact ⟨_, rfl, rfl⟩
    rw [if_neg h10]
    by_cases h11 : e.getRegsRet < 0
    · rw [if_pos h11]; exact ⟨_, rfl, rfl⟩
    rw [if_neg h11]
    by_cases h12 : e.setRegsRet < 0
    · rw [if_pos h12]; exact ⟨_, rfl, rfl⟩
    exfalso
    unfold setupFails at hsf
    tauto
  · intro st _ _
    rfl

/-- C6 witness: the status theorem applied to an environment whose open
call fails and to one that runs to a halt exit. -/
theorem mainRun_exit_status_witness :
    (∃ m, mainRun envSetupFail = some (MainResult.err m) ∧
      statusOf (MainResult.err m) = 1) ∧
    statusOf (MainResult.ok ControlState.Halted) = 0 :=
  ⟨(mainRun_exit_status envSetupFail).1 (by decide),
   (mainRun_exit_status envHalt).2 ControlState.Halted (by decide) (Or.inl rfl)⟩

/-- C10 (confirmed): every ok return of main — including the loop ending
through an internal-error exit, a fail-entry exit or the guard tripping —
maps to exit status 0, and an error return arises only from a setup-phase
failure or from the run-call failure message, so only those produce a
non-zero status. -/
theorem loop_error_endings_status_zero (e : Env) (r : MainResult)
    (h : mainRun e = some r) :
    (∀ st, r = MainResult.ok st → statusOf r = 0) ∧
    (∀ m, r = MainResult.err m → setupFails e ∨ m = "KVM_RUN failed") := by
  constructor
  · intro st hst
    subst hst
    rfl
  · intro m hm
    subst hm
    simp only [mainRun] at h
    by_cases h1 : e.openFd < 0
    · exact Or.inl (Or.inl h1)
    rw [if_neg h1] at h
    by_cases h2 : e.apiVersion ≠ KVM_API_VERSION
    · exact Or.inl (Or.inr (Or.inl h2))
    rw [if_neg h2] at h
    by_cases h3 : e.createVmFd < 0
    · exact Or.inl (Or.inr (Or.inr (Or.inl h3)))
    rw [if_neg h3] at h
    by_cases h4 : e.guestMemOk = false
    · exact Or.inl (Or.inr (Or.inr (Or.inr (Or.inl h4))))
    rw [if_neg h4] at h
    by_cases h5 : e.setRegionRet < 0
    · exact Or.inl (Or.inr (Or.inr (Or.inr (Or.inr (Or.inl h5)))))
    rw [if_neg h5] at h
    by_cases h6 : e.createVcpuFd < 0
    · exact Or.inl (Or.inr (Or.inr (Or.inr (Or.inr (Or.inr (Or.inl h6))))))
    rw [if_neg h6] at h
    by_cases h7 : e.mmapSizeRet < 0
    · exact Or.inl (Or.inr (Or.inr (Or.inr (Or.inr (Or.inr (Or.inr (Or.inl h7)))))))
    rw [if_neg h7] at h
    by_cases h8 : e.mapRunOk = false
    · exact Or.inl (Or.inr (Or.inr (Or.inr (Or.inr (Or.inr (Or.inr (Or.inr (Or.inl h8))))))))
    rw [if_neg h8] at h
    by_cases h9 : e.getSregsRet < 0
    · exact Or.inl (Or.inr (Or.inr (Or.inr (Or.inr (Or.inr (Or.inr (Or.inr (Or.inr
        (Or.inl h9)))))))))
    rw [if_neg h9] at h
    by_cases h10 : e.setSregsRet < 0
    · exact Or.inl (Or.inr (Or.inr (Or.inr (Or.inr (Or.inr (Or.inr (Or.inr (Or.inr
        (Or.inr (Or.inl h10))))))))))
    rw [if_neg h10] at h
    by_cases h11 : e.getRegsRet < 0
    · exact Or.inl (Or.inr (Or.inr (Or.inr (Or.inr (Or.inr (Or.inr (Or.inr (Or.inr
        (Or.inr (Or.inr (Or.inl h11)))))))))))
    rw [if_neg h11] at h
    by_cases h12 : e.setRegsRet < 0
    · exact Or.inl (Or.inr (Or.inr (Or.inr (Or.inr (Or.inr (Or.inr (Or.inr (Or.inr
        (Or.inr (Or.inr (Or.inr h12)))))))))))
    rw [if_neg h12] at h
    exact Or.inr (mainLoop_err_msg e.runRets e.exits 0 m h)

/-- C10 witness: the theorem applied to an environment whose loop trips the
guard after eleven unknown exits, giving exit status 0. -/
theorem loop_error_endings_status_zero_witness :
    statusOf (MainResult.ok ControlState.GuardTripped) = 0 :=
  (loop_error_endings_status_zero envGuardTrip (MainResult.ok ControlState.GuardTripped)
    (by decide)).1 ControlState.GuardTripped rfl

/-- C7 (confirmed): every ioctl command constant of kvm_bindings.rs,
computed from the source encoding helpers and the repr(C) sizes of the
declared payload structs, equals the kernel ABI value named in the claim,
and the payload sizes are 32, 144 and 312 bytes. -/
theorem ioctl_constants_match_abi :
    KVM_GET_API_VERSION = 0xAE00 ∧
    KVM_CREATE_VM = 0xAE01 ∧
    KVM_GET_VCPU_MMAP_SIZE = 0xAE04 ∧
    KVM_CREATE_VCPU = 0xAE41 ∧
    KVM_SET_USER_MEMORY_REGION = 0x4020AE46 ∧
    kvmUserspaceMemoryRegionSize = 32 ∧
    KVM_RUN = 0xAE80 ∧
    KVM_GET_REGS = 0x8090AE81 ∧
    KVM_SET_REGS = 0x4090AE82 ∧
    kvmRegsSize = 144 ∧
    KVM_GET_SREGS = 0x8138AE83 ∧
    KVM_SET_SREGS = 0x4138AE84 ∧
    kvmSregsSize = 312 := by
  decide

/-- C8 counterexample: the declared KvmSregs layout is not the layout the
claim states. The source has eight segment descriptor fields and five u64
control registers, so its field-type sequence differs from the claimed
one and its byte size is 312 where the claimed layout would occupy 256. -/
theorem sregs_layout_differs_from_claim :
    kvmSregs_types ≠ claimedSregs_types ∧
    kvmSregsSize = 312 ∧ claimedSregsSize = 256 := by
  decide

/-- C8 (corrected): the special register block has the amended layout:
eight segment descriptors (cs, ds, es, fs, gs, ss, tr, ldt), each laid out
exactly as the claim states per segment, two descriptor-table registers
laid out as the claim states, five control registers (cr0, cr2, cr3, cr4,
cr8) as u64, EFER u64, APIC base u64 and the four-element u64 interrupt
bitmap, for a total of 312 bytes. -/
theorem sregs_layout_amended :
    kvmSregs_types = amendedSregs_types ∧
    kvmSegment_fields.map (fun f => f.2) = claimedSegment_types ∧
    kvmDtable_fields.map (fun f => f.2) = claimedDtable_types ∧
    kvmSregsSize = 312 := by
  decide

/-- C9 (confirmed, with the guest execution modelled from the spec): the
scenario guest code, loaded by the byte writes of main.rs into the
zero-initialized 4096-byte block mapped at guest-physical 0x1000 and run
from rip 0x1000, produces exactly two io exits of direction OUT, size 1
to port 0x8a00 followed by exactly one hlt exit, and feeding that exit
sequence to the run-loop dispatcher consumes all three and reaches
Halted. -/
theorem scenario_two_io_then_hlt :
    scenarioExits = [mkIoOut 0x8a00, mkIoOut 0x8a00, mkHlt] ∧
    (mkIoOut 0x8a00).ioExit.port = 0x8a00 ∧
    (mkIoOut 0x8a00).ioExit.direction = KVM_EXIT_IO_OUT ∧
    (mkIoOut 0x8a00).ioExit.size = 1 ∧
    (mkIoOut 0x8a00).exit_reason = KVM_EXIT_IO ∧
    (mkHlt).exit_reason = KVM_EXIT_HLT ∧
    dispatchRun scenarioExits 0 = (some ControlState.Halted, scenarioExits) := by
  decide
